import Mathlib

/-!
# squishyent/service, Linux backend (`service_linux.go`)

A shallow embedding of the Linux service backend: the two variant
constructors, the variant selector `newService`, the lifecycle operations
`Install`, `Remove`, `Start`, `Stop`, and the run loop `Run`.

The operating system is an explicit `World` value threaded through every
operation.  A `World` holds

* the file map `fs` (path, as written, to content and mode),
* the log `calls` of the library calls made so far, oldest first, among them
  the external commands launched,
* the answers the environment gives to the calls that can fail for reasons
  outside the file map (`os.Create`, writes, `os.Chmod`, `os.Remove`,
  `osext.Executable`, `syslog.New`, and the exit status of a command).

Paths are compared as written (no normalisation, no links), `os.Stat`
succeeds exactly on the paths the file map holds, and an external command
acts on the world only through its recorded launch and its exit status.
-/

namespace Service

/-! ## Go errors and results -/

/-- The Go `error` values the backend can return. -/
inductive GoError where
  /-- The value of `fmt.Errorf`, holding the formatted message. -/
  | errorf (msg : String)
  /-- An `*os.PathError`: operation, path, reason. -/
  | pathError (op path reason : String)
  /-- The command could not be launched (`exec.Error` and friends). -/
  | launchError (name : String)
  /-- The command ran and exited non-zero (`*exec.ExitError`). -/
  | exitError (code : Nat)
  /-- Any other error, by its message (library and callback errors). -/
  | other (msg : String)
deriving DecidableEq

/-- What a call that returns a Go `error` ends in: `nil`, an error, or a
run-time panic. -/
inductive Status where
  | nil
  | error (e : GoError)
  | panicked (msg : String)
deriving DecidableEq

/-- The status of a returned Go `error` value. -/
def Status.ofErr : Option GoError → Status
  | none => Status.nil
  | some e => Status.error e

/-! ## The world -/

/-- A regular file: its content and its permission bits. -/
structure File where
  content : String
  mode : Nat
deriving DecidableEq

/-- How a launched external command ends. -/
inductive CmdResult where
  | notStarted
  | exited (code : Nat)
deriving DecidableEq

/-- A library call that touches the host. -/
inductive Call where
  | stat (p : String)
  | create (p : String)
  | write (p : String) (bytes : String)
  | chmod (p : String) (mode : Nat)
  | remove (p : String)
  | executable
  | syslogNew (priority : Nat) (tag : String)
  | exec (argv : List String)
deriving DecidableEq

/-- The state of the host the backend acts on. -/
structure World where
  /-- File map. -/
  fs : String → Option File
  /-- The library calls made so far, oldest first. -/
  calls : List Call
  /-- Process umask, applied to the mode of a newly created file. -/
  umask : Nat
  /-- Failure of `os.Create` at a path, if any. -/
  createErr : String → Option GoError
  /-- Failure of a write to the file at a path whose content so far is given. -/
  writeErr : String → String → Option GoError
  /-- Failure of `os.Chmod` at an existing path, if any. -/
  chmodErr : String → Option GoError
  /-- Failure of `os.Remove` at an existing path, if any. -/
  removeErr : String → Option GoError
  /-- Result of `osext.Executable`. -/
  executable : Except GoError String
  /-- Failure of `syslog.New`, if any. -/
  syslogErr : Option GoError
  /-- Outcome of a command, from the calls made before it and its argument vector. -/
  cmdResult : List Call → List String → CmdResult

/-- Record a call. -/
def World.record (w : World) (c : Call) : World :=
  { w with calls := w.calls ++ [c] }

/-- The argument vector of a call that launches a command. -/
def Call.argv : Call → Option (List String)
  | Call.exec argv => some argv
  | _ => none

/-- The external commands launched so far, oldest first. -/
def World.cmds (w : World) : List (List String) :=
  w.calls.filterMap Call.argv

/-- Replace the entry of one path in a file map. -/
def fsSet (fs : String → Option File) (p : String) (f : Option File) : String → Option File :=
  fun q => if q = p then f else fs q

/-- The model of `os.Stat`, reduced to its error: `nil` exactly when the path exists. -/
def osStat (w : World) (p : String) : Option GoError × World :=
  match w.fs p with
  | some _ => (none, w.record (Call.stat p))
  | none => (some (GoError.pathError "stat" p "no such file or directory"), w.record (Call.stat p))

/-- The model of `os.Create`: open with create and truncate, mode 0666 before umask.
An existing file is truncated and keeps its mode. -/
def osCreate (w : World) (p : String) : Option GoError × World :=
  let w1 := w.record (Call.create p)
  match w.createErr p with
  | some e => (some e, w1)
  | none =>
    match w.fs p with
    | some f => (none, { w1 with fs := fsSet w.fs p (some { f with content := "" }) })
    | none => (none, { w1 with fs := fsSet w.fs p (some ⟨"", 0o666 &&& (0o777 ^^^ (w.umask % 0o1000))⟩) })

/-- One `Write` call on the open file at `p`: append the bytes, or fail. -/
def fileWrite (w : World) (p : String) (bytes : String) : Option GoError × World :=
  let w1 := w.record (Call.write p bytes)
  match w.fs p with
  | none => (some (GoError.pathError "write" p "bad file descriptor"), w1)
  | some f =>
    match w.writeErr p f.content with
    | some e => (some e, w1)
    | none => (none, { w1 with fs := fsSet w.fs p (some { f with content := f.content ++ bytes }) })

/-- The model of `os.Chmod`. -/
def osChmod (w : World) (p : String) (mode : Nat) : Option GoError × World :=
  let w1 := w.record (Call.chmod p mode)
  match w.fs p with
  | none => (some (GoError.pathError "chmod" p "no such file or directory"), w1)
  | some f =>
    match w.chmodErr p with
    | some e => (some e, w1)
    | none => (none, { w1 with fs := fsSet w.fs p (some { f with mode := mode }) })

/-- The model of `os.Remove`. -/
def osRemove (w : World) (p : String) : Option GoError × World :=
  let w1 := w.record (Call.remove p)
  match w.fs p with
  | none => (some (GoError.pathError "remove" p "no such file or directory"), w1)
  | some _ =>
    match w.removeErr p with
    | some e => (some e, w1)
    | none => (none, { w1 with fs := fsSet w.fs p none })

/-- The model of `osext.Executable`. -/
def osextExecutable (w : World) : Except GoError String × World :=
  (w.executable, w.record Call.executable)

/-- The error a command's outcome becomes: `nil` exactly on exit status zero. -/
def CmdResult.toErr (name : String) : CmdResult → Option GoError
  | CmdResult.exited 0 => none
  | CmdResult.exited (n + 1) => some (GoError.exitError (n + 1))
  | CmdResult.notStarted => some (GoError.launchError name)

/-- The model of `exec.Command(name, args...).Run()`: the launch is recorded and the
environment decides how the command ends. -/
def cmdRun (w : World) (name : String) (args : List String) : Option GoError × World :=
  ((w.cmdResult w.calls (name :: args)).toErr name, w.record (Call.exec (name :: args)))

/-! ## text/template, as far as the two scripts use it -/

/-- A parsed template node: literal text, or a field action. -/
inductive Node where
  | text (s : String)
  | field (name : String)
deriving DecidableEq

/-- The left delimiter character. -/
def lbrace : Char := Char.ofNat 123

/-- The right delimiter character. -/
def rbrace : Char := Char.ofNat 125

/-- Close the pending literal text, if it is not empty. -/
def flushText (acc : List Char) (out : List Node) : List Node :=
  if acc = [] then out else Node.text (String.mk acc.reverse) :: out

/-- The body of an action: blanks, a dot, an identifier, blanks.  Every other
action is outside the modelled fragment and is rejected. -/
def parseField (body : List Char) : Option String :=
  match ((body.dropWhile (fun c => c = ' ')).reverse.dropWhile (fun c => c = ' ')).reverse with
  | '.' :: ident =>
    if ident ≠ [] ∧ ident.all (fun c => c.isAlphanum || c = '_') then some (String.mk ident) else none
  | _ => none

/-- The lexer and parser: text up to a doubled left brace, then an action up to a
doubled right brace.  `inAction` tells the mode, `acc` holds the pending
characters in reverse, `out` the nodes so far in reverse. -/
def parseNodes : List Char → Bool → List Char → List Node → Option (List Node)
  | [], false, acc, out => some (flushText acc out).reverse
  | [], true, _, _ => none
  | [c], false, acc, out => parseNodes [] false (c :: acc) out
  | c :: d :: rest, false, acc, out =>
    if c = lbrace ∧ d = lbrace then parseNodes rest true [] (flushText acc out)
    else parseNodes (d :: rest) false (c :: acc) out
  | [c], true, acc, out => parseNodes [] true (c :: acc) out
  | c :: d :: rest, true, acc, out =>
    if c = rbrace ∧ d = rbrace then
      match parseField acc.reverse with
      | some f => parseNodes rest false [] (Node.field f :: out)
      | none => none
    else parseNodes (d :: rest) true (c :: acc) out

/-- The model of `template.New(...).Parse(text)`; `none` is a parse error. -/
def templateParse (text : String) : Option (List Node) :=
  parseNodes text.toList false [] []

/-- The anonymous struct `to` that `Install` hands to the template. -/
structure TemplateData where
  Name : String
  Display : String
  Description : String
  Path : String
deriving DecidableEq

/-- Field lookup on the struct. -/
def TemplateData.lookup (data : TemplateData) (field : String) : Option String :=
  if field = "Name" then some data.Name
  else if field = "Display" then some data.Display
  else if field = "Description" then some data.Description
  else if field = "Path" then some data.Path
  else none

/-- The model of `t.Execute(f, to)` on the open file at `p`: node by node, each node
one write; a field the struct lacks is an execution error. -/
def templateExecute (w : World) (p : String) (data : TemplateData) : List Node → Option GoError × World
  | [] => (none, w)
  | Node.text s :: rest =>
    match fileWrite w p s with
    | (some e, w1) => (some e, w1)
    | (none, w1) => templateExecute w1 p data rest
  | Node.field f :: rest =>
    match data.lookup f with
    | none => (some (GoError.other ("can't evaluate field " ++ f)), w)
    | some v =>
      match fileWrite w p v with
      | (some e, w1) => (some e, w1)
      | (none, w1) => templateExecute w1 p data rest

/-- The text a template produces when every write succeeds. -/
def renderNodes (data : TemplateData) : List Node → Option String
  | [] => some ""
  | Node.text s :: rest => (renderNodes data rest).map (fun r => s ++ r)
  | Node.field f :: rest =>
    match data.lookup f with
    | none => none
    | some v => (renderNodes data rest).map (fun r => v ++ r)

/-! ## The two script templates -/

/-- A script for upstart. -/
def upstartScript : String :=
  "# \x7b\x7b.Description\x7d\x7d\n"
  ++ "\n"
  ++ "description     \"\x7b\x7b.Display\x7d\x7d\"\n"
  ++ "\n"
  ++ "start on filesystem or runlevel [2345]\n"
  ++ "stop on runlevel [!2345]\n"
  ++ "\n"
  ++ "#setuid username\n"
  ++ "\n"
  ++ "kill signal INT\n"
  ++ "\n"
  ++ "respawn\n"
  ++ "respawn limit 10 5\n"
  ++ "umask 022\n"
  ++ "\n"
  ++ "console none\n"
  ++ "\n"
  ++ "pre-start script\n"
  ++ "    test -x \x7b\x7b.Path\x7d\x7d || \x7b stop; exit 0; \x7d\n"
  ++ "end script\n"
  ++ "\n"
  ++ "# Start\n"
  ++ "exec \x7b\x7b.Path\x7d\x7d\n"

/-- A script for init.d. -/
def initScript : String :=
  "#!/bin/bash\n"
  ++ "#\n"
  ++ "# \x7b\x7b.Name\x7d\x7d \x7b\x7b.Display\x7d\x7d\n"
  ++ "#\n"
  ++ "# chkconfig: 2345 99 01\n"
  ++ "# description: \x7b\x7b.Description\x7d\x7d\n"
  ++ "# processname: \x7b\x7b.Name\x7d\x7d\n"
  ++ "\n"
  ++ "source /etc/rc.d/init.d/functions\n"
  ++ "\n"
  ++ "RETVAL=0\n"
  ++ "\n"
  ++ "usage()\n"
  ++ "\x7b\n"
  ++ "\techo $\"Usage: $0 \x7bstart|stop|restart\x7d\" 1>&2\n"
  ++ "\tRETVAL=2\n"
  ++ "\x7d\n"
  ++ "\n"
  ++ "restart()\n"
  ++ "\x7b\n"
  ++ "\tstop\n"
  ++ "\tstart\n"
  ++ "\x7d\n"
  ++ "\n"
  ++ "start() \x7b\n"
  ++ "  echo -n $\"Starting \x7b\x7b.Name\x7d\x7d (\x7b\x7b.Path\x7d\x7d): \"\n"
  ++ "\tdaemon \x7b\x7b.Path\x7d\x7d\n"
  ++ "\tRETVAL=$?\n"
  ++ "\techo\n"
  ++ "\x7d\n"
  ++ "\n"
  ++ "stop() \x7b\n"
  ++ "\techo -n $\"Shutting down \x7b\x7b.Name\x7d\x7d (\x7b\x7b.Path\x7d\x7d): \"\n"
  ++ "\tkillproc \x7b\x7b.Path\x7d\x7d\n"
  ++ "\tRETVAL=$?\n"
  ++ "\t[ $RETVAL -eq 0 ] && success || failure\n"
  ++ "\techo\n"
  ++ "\treturn $RETVAL\n"
  ++ "\x7d\n"
  ++ "\n"
  ++ "case \"$1\" in\n"
  ++ "    stop) stop ;;\n"
  ++ "    start|restart|reload|force-reload) restart ;;\n"
  ++ "    *) usage ;;\n"
  ++ "esac\n"
  ++ "\n"
  ++ "exit $RETVAL\n"

/-! ## The service value and its constructors -/

/-- The handle `syslog.New` returns: the priority and the tag it was opened with. -/
structure SyslogWriter where
  priority : Nat
  tag : String
deriving DecidableEq

/-- The priority `syslog.LOG_INFO`. -/
def LOG_INFO : Nat := 6

/-- The model of `syslog.New`. -/
def syslogNew (w : World) (priority : Nat) (tag : String) : Except GoError SyslogWriter × World :=
  match w.syslogErr with
  | some e => (Except.error e, w.record (Call.syslogNew priority tag))
  | none => (Except.ok ⟨priority, tag⟩, w.record (Call.syslogNew priority tag))

/-- The struct `linuxService`; a nil logger is `none`. -/
structure linuxService where
  name : String
  displayName : String
  description : String
  exePath : String
  logger : Option SyslogWriter
  scriptPath : String
  scriptTemplate : String
  scriptPerms : Nat
  installCmd : List String
  removeCmd : List String
  startCmd : List String
  stopCmd : List String
deriving DecidableEq

/-- The struct literal `newUpstartService` returns. -/
def upstartService (name displayName description exePath : String) : linuxService :=
  {
    name := name
    displayName := displayName
    description := description
    exePath := exePath
    logger := none
    scriptTemplate := upstartScript
    scriptPath := "/etc/init/" ++ name ++ ".conf"
    scriptPerms := 0o644
    installCmd := []
    removeCmd := []
    startCmd := ["start", name]
    stopCmd := ["stop", name] }

/-- The constructor of the upstart variant: the literal and a nil error. -/
def newUpstartService (name displayName description exePath : String) : Except GoError linuxService :=
  Except.ok (upstartService name displayName description exePath)

/-- The struct literal `newChkconfigService` returns. -/
def chkconfigService (name displayName description exePath : String) : linuxService :=
  {
    name := name
    displayName := displayName
    description := description
    exePath := exePath
    logger := none
    scriptPath := "/etc/init.d/" ++ name
    scriptTemplate := initScript
    scriptPerms := 0o755
    installCmd := ["chkconfig", "--add", name]
    removeCmd := ["chkconfig", "--del", name]
    startCmd := ["service", name, "start"]
    stopCmd := ["service", name, "stop"] }

/-- The constructor of the chkconfig variant: the literal and a nil error. -/
def newChkconfigService (name displayName description exePath : String) : Except GoError linuxService :=
  Except.ok (chkconfigService name displayName description exePath)

/-- The variant selector: the chkconfig variant when the marker file can be
stat-ed, the upstart variant otherwise; then the log sink is opened. -/
def newService (w : World) (name displayName description exePath : String) :
    Except GoError linuxService × World :=
  let (serr, w1) := osStat w "/etc/redhat-release"
  let r := match serr with
    | none => newChkconfigService name displayName description exePath
    | some _ => newUpstartService name displayName description exePath
  match r with
  | Except.error e => (Except.error e, w1)
  | Except.ok s =>
    match syslogNew w1 LOG_INFO name with
    | (Except.error e, w2) => (Except.error e, w2)
    | (Except.ok lg, w2) => (Except.ok { s with logger := some lg }, w2)

/-! ## Lifecycle -/

/-- The method `Install`. -/
def linuxService.Install (s : linuxService) (w : World) : Status × World :=
  match osStat w s.scriptPath with
  | (none, w0) => (Status.error (GoError.errorf ("Init already exists: " ++ s.scriptPath)), w0)
  | (some _, w0) =>
    match osCreate w0 s.scriptPath with
    | (some e, w1) => (Status.error e, w1)
    | (none, w1) =>
      let resolved : Except GoError String × World :=
        if s.exePath = "" then osextExecutable w1 else (Except.ok s.exePath, w1)
      match resolved with
      | (Except.error e, w2) => (Status.error e, w2)
      | (Except.ok path, w2) =>
        let data : TemplateData := ⟨s.name, s.displayName, s.description, path⟩
        match templateParse s.scriptTemplate with
        | none => (Status.panicked "template: parse error", w2)
        | some t =>
          match templateExecute w2 s.scriptPath data t with
          | (some e, w3) => (Status.error e, w3)
          | (none, w3) =>
            match osChmod w3 s.scriptPath s.scriptPerms with
            | (some e, w4) => (Status.error e, w4)
            | (none, w4) =>
              match s.installCmd with
              | name :: args =>
                let (err, w5) := cmdRun w4 name args
                (Status.ofErr err, w5)
              | [] => (Status.nil, w4)

/-- The method `Remove`. -/
def linuxService.Remove (s : linuxService) (w : World) : Status × World :=
  match s.removeCmd with
  | name :: args =>
    match cmdRun w name args with
    | (some e, w1) => (Status.error e, w1)
    | (none, w1) =>
      let (err, w2) := osRemove w1 s.scriptPath
      (Status.ofErr err, w2)
  | [] =>
    let (err, w2) := osRemove w s.scriptPath
    (Status.ofErr err, w2)

/-- The method `Start`; indexing an empty command vector panics. -/
def linuxService.Start (s : linuxService) (w : World) : Status × World :=
  match s.startCmd with
  | [] => (Status.panicked "index out of range", w)
  | name :: args =>
    let (err, w1) := cmdRun w name args
    (Status.ofErr err, w1)

/-- The method `Stop`; indexing an empty command vector panics. -/
def linuxService.Stop (s : linuxService) (w : World) : Status × World :=
  match s.stopCmd with
  | [] => (Status.panicked "index out of range", w)
  | name :: args =>
    let (err, w1) := cmdRun w name args
    (Status.ofErr err, w1)

/-! ## The run loop -/

/-- The two signal values of package `os`. -/
inductive Signal where
  | Interrupt
  | Kill
deriving DecidableEq

/-- What the run loop does, as seen from outside. -/
inductive RunEvent where
  | onStart
  | notify (sigs : List Signal)
  | receive (sig : Signal)
  | onStop
deriving DecidableEq

/-- The state the run loop acts on: the host program's own state (which the
callbacks act on), the signals sent to the process after it has registered
(oldest first), and the events so far. -/
structure RunState (σ : Type) where
  user : σ
  signals : List Signal
  events : List RunEvent

/-- How a call of `Run` ends: it returns an error value, it never returns because
no signal arrives, or the process is ended by a signal before `Run` returns. -/
inductive RunResult where
  | returned (err : Option GoError)
  | blocked
  | terminated (sig : Signal)
deriving DecidableEq

/-- Whether a process can catch the signal: `SIGKILL` cannot be caught, so package
`os/signal` never relays it, whatever was registered. -/
def Signal.catchable : Signal → Bool
  | Signal.Interrupt => true
  | Signal.Kill => false

/-- What the receive on the channel sees. -/
inductive Delivery where
  /-- The signal was relayed to the channel; the rest stays pending. -/
  | received (sig : Signal) (rest : List Signal)
  /-- No signal ever arrives: the receive blocks for ever. -/
  | never
  /-- The signal ended the process: it cannot be caught, or it was not registered
  for and its default action is to end the program. -/
  | ended (sig : Signal) (rest : List Signal)

/-- The receive on the channel after `signal.Notify(c, registered...)`: the next
signal sent to the process is relayed when it can be caught and was registered
for, and ends the process otherwise. -/
def chanRecv (registered : List Signal) : List Signal → Delivery
  | [] => Delivery.never
  | sig :: rest =>
    if sig.catchable ∧ sig ∈ registered then Delivery.received sig rest
    else Delivery.ended sig rest

/-- The method `Run`. -/
def linuxService.Run {σ : Type} (_s : linuxService) (onStart onStop : σ → Option GoError × σ)
    (st : RunState σ) : RunResult × RunState σ :=
  let (err, u1) := onStart st.user
  let st1 : RunState σ := { st with user := u1, events := st.events ++ [RunEvent.onStart] }
  match err with
  | some e => (RunResult.returned (some e), st1)
  | none =>
    let registered := [Signal.Interrupt, Signal.Kill]
    let st2 : RunState σ := { st1 with events := st1.events ++ [RunEvent.notify registered] }
    match chanRecv registered st2.signals with
    | Delivery.never => (RunResult.blocked, st2)
    | Delivery.ended sig rest => (RunResult.terminated sig, { st2 with signals := rest })
    | Delivery.received sig rest =>
      let st3 : RunState σ := { st2 with signals := rest, events := st2.events ++ [RunEvent.receive sig] }
      let (err2, u2) := onStop st3.user
      (RunResult.returned err2, { st3 with user := u2, events := st3.events ++ [RunEvent.onStop] })

/-! ## Vocabulary of the statements -/

/-- The executable path `Install` uses: the configured one, or the one of the
running executable when none is configured. -/
def resolvedPath (s : linuxService) (w : World) : Except GoError String :=
  if s.exePath = "" then w.executable else Except.ok s.exePath

/-- The commands a command vector stands for: none when it is empty. -/
def launched (cmd : List String) : List (List String) :=
  match cmd with
  | [] => []
  | name :: args => [name :: args]

/-- The text `t` contains `sub` as a substring. -/
def contains (t sub : String) : Prop :=
  ∃ a b : String, t = a ++ sub ++ b

/-- The command ended in failure: it could not be launched, or it exited non-zero. -/
def CmdResult.failed (r : CmdResult) : Prop :=
  r = CmdResult.notStarted ∨ ∃ c, c ≠ 0 ∧ r = CmdResult.exited c

/-- What it means for a call `r` made in world `w` to launch exactly the command
`argv` and nothing else: the only new call is that launch, the file map is
untouched, the result is an error exactly when the command failed, and there
is no panic. -/
def launchesOnly (w : World) (argv : List String) (r : Status × World) : Prop :=
  r.2.calls = w.calls ++ [Call.exec argv] ∧ r.2.fs = w.fs ∧
  ((∃ err, r.1 = Status.error err) ↔ (w.cmdResult w.calls argv).failed) ∧
  (∀ msg, r.1 ≠ Status.panicked msg)

/-- The nodes of the upstart script. -/
def upstartNodes : List Node :=
  [Node.text "# ", Node.field "Description",
   Node.text "\n\ndescription     \"", Node.field "Display",
   Node.text ("\"\n\nstart on filesystem or runlevel [2345]\nstop on runlevel [!2345]\n\n"
     ++ "#setuid username\n\nkill signal INT\n\nrespawn\nrespawn limit 10 5\numask 022\n\n"
     ++ "console none\n\npre-start script\n    test -x "),
   Node.field "Path",
   Node.text " || \x7b stop; exit 0; \x7d\nend script\n\n# Start\nexec ",
   Node.field "Path", Node.text "\n"]

/-- The nodes of the init.d script. -/
def initNodes : List Node :=
  [Node.text "#!/bin/bash\n#\n# ", Node.field "Name", Node.text " ", Node.field "Display",
   Node.text "\n#\n# chkconfig: 2345 99 01\n# description: ", Node.field "Description",
   Node.text "\n# processname: ", Node.field "Name",
   Node.text ("\n\nsource /etc/rc.d/init.d/functions\n\nRETVAL=0\n\nusage()\n\x7b\n"
     ++ "\techo $\"Usage: $0 \x7bstart|stop|restart\x7d\" 1>&2\n\tRETVAL=2\n\x7d\n\n"
     ++ "restart()\n\x7b\n\tstop\n\tstart\n\x7d\n\nstart() \x7b\n  echo -n $\"Starting "),
   Node.field "Name", Node.text " (", Node.field "Path", Node.text "): \"\n\tdaemon ",
   Node.field "Path",
   Node.text "\n\tRETVAL=$?\n\techo\n\x7d\n\nstop() \x7b\n\techo -n $\"Shutting down ",
   Node.field "Name", Node.text " (", Node.field "Path", Node.text "): \"\n\tkillproc ",
   Node.field "Path",
   Node.text ("\n\tRETVAL=$?\n\t[ $RETVAL -eq 0 ] && success || failure\n\techo\n"
     ++ "\treturn $RETVAL\n\x7d\n\ncase \"$1\" in\n    stop) stop ;;\n"
     ++ "    start|restart|reload|force-reload) restart ;;\n    *) usage ;;\nesac\n\n"
     ++ "exit $RETVAL\n")]

/-- The upstart script for display name `Svc One`, description `d` and
executable `/usr/bin/daemon`. -/
def renderedExample : String :=
  "# d\n\ndescription     \"Svc One\"\n\nstart on filesystem or runlevel [2345]\n"
  ++ "stop on runlevel [!2345]\n\n#setuid username\n\nkill signal INT\n\nrespawn\n"
  ++ "respawn limit 10 5\numask 022\n\nconsole none\n\npre-start script\n"
  ++ "    test -x /usr/bin/daemon || \x7b stop; exit 0; \x7d\nend script\n\n# Start\n"
  ++ "exec /usr/bin/daemon\n"

/-! ## Example hosts -/

/-- A host without files on which every call succeeds. -/
def plainHost : World :=
  { fs := fun _ => none
    calls := []
    umask := 0o022
    createErr := fun _ => none
    writeErr := fun _ _ => none
    chmodErr := fun _ => none
    removeErr := fun _ => none
    executable := Except.ok "/usr/bin/svc1"
    syslogErr := none
    cmdResult := fun _ _ => CmdResult.exited 0 }

/-- The same host with the distribution marker file. -/
def redhatHost : World :=
  { plainHost with fs := fsSet plainHost.fs "/etc/redhat-release" (some ⟨"release 6\n", 0o644⟩) }

/-- A host on which every external command exits with status 1. -/
def failingCmdHost : World :=
  { plainHost with cmdResult := fun _ _ => CmdResult.exited 1 }

/-- A host on which the path of the running executable cannot be resolved. -/
def noExecutableHost : World :=
  { plainHost with executable := Except.error (GoError.other "readlink /proc/self/exe: no such file or directory") }

/-- The upstart variant of the example service. -/
def svc1Upstart : linuxService := upstartService "svc1" "Svc One" "d" "/usr/bin/svc1"

/-- The chkconfig variant of the example service. -/
def svc1Chkconfig : linuxService := chkconfigService "svc1" "Svc One" "d" "/usr/bin/svc1"

/-- A host that holds the init.d script of the example service and on which every
external command exits with status 1. -/
def installedFailingHost : World :=
  { failingCmdHost with
    fs := fsSet failingCmdHost.fs "/etc/init.d/svc1" (some ⟨"#!/bin/bash\n", 0o755⟩) }

/-- A run-loop state with a counter as user state and one pending interrupt. -/
def interruptedRun : RunState Nat :=
  { user := 0, signals := [Signal.Interrupt], events := [] }

/-- A run-loop state with a counter as user state and one pending kill. -/
def killedRun : RunState Nat :=
  { user := 0, signals := [Signal.Kill], events := [] }

/-- A run-loop state with a counter as user state to which no signal is sent. -/
def idleRun : RunState Nat :=
  { user := 0, signals := [], events := [] }

/-! ## Basic facts about the world operations -/

@[simp] theorem record_fs (w : World) (c : Call) : (w.record c).fs = w.fs := rfl

@[simp] theorem record_calls (w : World) (c : Call) : (w.record c).calls = w.calls ++ [c] := rfl

@[simp] theorem record_executable (w : World) (c : Call) : (w.record c).executable = w.executable := rfl

@[simp] theorem record_syslogErr (w : World) (c : Call) : (w.record c).syslogErr = w.syslogErr := rfl

@[simp] theorem record_createErr (w : World) (c : Call) : (w.record c).createErr = w.createErr := rfl

@[simp] theorem record_umask (w : World) (c : Call) : (w.record c).umask = w.umask := rfl

theorem record_cmds_exec (w : World) (argv : List String) :
    (w.record (Call.exec argv)).cmds = w.cmds ++ [argv] := by
  simp [World.cmds, Call.argv]

theorem fsSet_same (fs : String → Option File) (p : String) (f : Option File) :
    fsSet fs p f p = f := by
  simp [fsSet]

theorem fsSet_other (fs : String → Option File) (p q : String) (f : Option File) (h : q ≠ p) :
    fsSet fs p f q = fs q := by
  simp [fsSet, h]

theorem fsSet_fsSet (fs : String → Option File) (p : String) (f g : Option File) :
    fsSet (fsSet fs p f) p g = fsSet fs p g := by
  funext q
  by_cases h : q = p <;> simp [fsSet, h]

theorem fsSet_self (fs : String → Option File) (p : String) :
    fsSet fs p (fs p) = fs := by
  funext q
  by_cases h : q = p <;> simp [fsSet, h]

theorem osStat_snd (w : World) (p : String) : (osStat w p).2 = w.record (Call.stat p) := by
  unfold osStat
  cases w.fs p <;> rfl

theorem osStat_fst_none_iff (w : World) (p : String) :
    (osStat w p).1 = none ↔ ∃ f, w.fs p = some f := by
  unfold osStat
  cases w.fs p <;> simp

theorem cmdRun_snd (w : World) (name : String) (args : List String) :
    (cmdRun w name args).2 = w.record (Call.exec (name :: args)) := rfl

theorem cmdRun_fst (w : World) (name : String) (args : List String) :
    (cmdRun w name args).1 = (w.cmdResult w.calls (name :: args)).toErr name := rfl

theorem toErr_eq_none_iff (name : String) (r : CmdResult) :
    r.toErr name = none ↔ r = CmdResult.exited 0 := by
  cases r with
  | notStarted => simp [CmdResult.toErr]
  | exited c => cases c <;> simp [CmdResult.toErr]

theorem fileWrite_nil (w w1 : World) (p bytes : String) (f : File) (hf : w.fs p = some f)
    (h : fileWrite w p bytes = (none, w1)) :
    w1.fs = fsSet w.fs p (some ⟨f.content ++ bytes, f.mode⟩) ∧ w1.cmds = w.cmds := by
  unfold fileWrite at h
  simp only [hf] at h
  cases hwe : w.writeErr p f.content with
  | some e => rw [hwe] at h; simp at h
  | none =>
    rw [hwe] at h
    simp only [Prod.mk.injEq, true_and] at h
    subst h
    exact ⟨rfl, by simp [World.cmds, World.record, Call.argv]⟩

/-- A successful template execution appends the rendered text to the file and
launches nothing. -/
theorem templateExecute_nil (p : String) (data : TemplateData) (nodes : List Node) :
    ∀ (w w2 : World) (f : File), w.fs p = some f →
      templateExecute w p data nodes = (none, w2) →
      ∃ txt, renderNodes data nodes = some txt ∧
        w2.fs = fsSet w.fs p (some ⟨f.content ++ txt, f.mode⟩) ∧ w2.cmds = w.cmds := by
  induction nodes with
  | nil =>
    intro w w2 f hf h
    simp only [templateExecute, Prod.mk.injEq, true_and] at h
    subst h
    refine ⟨"", rfl, ?_, rfl⟩
    have : f.content ++ "" = f.content := by simp
    rw [this, ← hf, fsSet_self]
  | cons node rest ih =>
    intro w w2 f hf h
    cases node with
    | text s =>
      simp only [templateExecute] at h
      rcases hw : fileWrite w p s with ⟨err, w1⟩
      rw [hw] at h
      cases err with
      | some e => simp at h
      | none =>
        obtain ⟨hfs1, hc1⟩ := fileWrite_nil w w1 p s f hf hw
        have hf1 : w1.fs p = some ⟨f.content ++ s, f.mode⟩ := by rw [hfs1, fsSet_same]
        obtain ⟨txt, hr, hfs2, hc2⟩ := ih w1 w2 _ hf1 h
        refine ⟨s ++ txt, by simp [renderNodes, hr], ?_, hc2.trans hc1⟩
        rw [hfs2, hfs1, fsSet_fsSet, String.append_assoc]
    | field name =>
      simp only [templateExecute] at h
      cases hl : data.lookup name with
      | none => rw [hl] at h; simp at h
      | some v =>
        rw [hl] at h
        simp only at h
        rcases hw : fileWrite w p v with ⟨err, w1⟩
        rw [hw] at h
        cases err with
        | some e => simp at h
        | none =>
          obtain ⟨hfs1, hc1⟩ := fileWrite_nil w w1 p v f hf hw
          have hf1 : w1.fs p = some ⟨f.content ++ v, f.mode⟩ := by rw [hfs1, fsSet_same]
          obtain ⟨txt, hr, hfs2, hc2⟩ := ih w1 w2 _ hf1 h
          refine ⟨v ++ txt, by simp [renderNodes, hl, hr], ?_, hc2.trans hc1⟩
          rw [hfs2, hfs1, fsSet_fsSet, String.append_assoc]

theorem record_cmds_of_argv_none (w : World) (c : Call) (h : c.argv = none) :
    (w.record c).cmds = w.cmds := by
  simp [World.cmds, h]

theorem osCreate_nil (w w1 : World) (p : String) (hf : w.fs p = none)
    (h : osCreate w p = (none, w1)) :
    w1.fs = fsSet w.fs p (some ⟨"", 0o666 &&& (0o777 ^^^ (w.umask % 0o1000))⟩) ∧
      w1.cmds = w.cmds ∧ w1.executable = w.executable := by
  unfold osCreate at h
  simp only [hf] at h
  cases hce : w.createErr p with
  | some e => rw [hce] at h; simp at h
  | none =>
    rw [hce] at h
    simp only [Prod.mk.injEq, true_and] at h
    subst h
    exact ⟨rfl, by simp [World.cmds, World.record, Call.argv], rfl⟩

theorem osChmod_nil (w w1 : World) (p : String) (mode : Nat)
    (h : osChmod w p mode = (none, w1)) :
    ∃ f, w.fs p = some f ∧ w1.fs = fsSet w.fs p (some ⟨f.content, mode⟩) ∧ w1.cmds = w.cmds := by
  unfold osChmod at h
  cases hf : w.fs p with
  | none => rw [hf] at h; simp at h
  | some f =>
    rw [hf] at h
    simp only at h
    cases hce : w.chmodErr p with
    | some e => rw [hce] at h; simp at h
    | none =>
      rw [hce] at h
      simp only [Prod.mk.injEq, true_and] at h
      subst h
      exact ⟨f, rfl, rfl, by simp [World.cmds, World.record, Call.argv]⟩

theorem osRemove_nil (w w1 : World) (p : String) (h : osRemove w p = (none, w1)) :
    w1.fs = fsSet w.fs p none ∧ w1.cmds = w.cmds := by
  unfold osRemove at h
  cases hf : w.fs p with
  | none => rw [hf] at h; simp at h
  | some f =>
    rw [hf] at h
    simp only at h
    cases hce : w.removeErr p with
    | some e => rw [hce] at h; simp at h
    | none =>
      rw [hce] at h
      simp only [Prod.mk.injEq, true_and] at h
      subst h
      exact ⟨rfl, by simp [World.cmds, World.record, Call.argv]⟩

theorem osRemove_absent (w : World) (p : String) (hf : w.fs p = none) :
    osRemove w p =
      (some (GoError.pathError "remove" p "no such file or directory"), w.record (Call.remove p)) := by
  unfold osRemove
  simp only [hf]

/-- What a successful `Install` has done. -/
theorem Install_nil (s : linuxService) (w w2 : World) (h : s.Install w = (Status.nil, w2)) :
    w.fs s.scriptPath = none ∧
    ∃ path nodes txt, resolvedPath s w = Except.ok path ∧
      templateParse s.scriptTemplate = some nodes ∧
      renderNodes ⟨s.name, s.displayName, s.description, path⟩ nodes = some txt ∧
      w2.fs = fsSet w.fs s.scriptPath (some ⟨txt, s.scriptPerms⟩) ∧
      w2.cmds = w.cmds ++ launched s.installCmd := by
  unfold linuxService.Install at h
  have hsnd := osStat_snd w s.scriptPath
  rcases hs : osStat w s.scriptPath with ⟨serr, w0⟩
  rw [hs] at h hsnd
  simp only at hsnd
  subst hsnd
  cases serr with
  | none => simp at h
  | some e0 =>
    have habs : w.fs s.scriptPath = none := by
      cases hf : w.fs s.scriptPath with
      | none => rfl
      | some f =>
        have := (osStat_fst_none_iff w s.scriptPath).2 ⟨f, hf⟩
        rw [hs] at this
        simp at this
    refine ⟨habs, ?_⟩
    simp only at h
    rcases hc : osCreate (w.record (Call.stat s.scriptPath)) s.scriptPath with ⟨cerr, w1⟩
    rw [hc] at h
    cases cerr with
    | some e => simp at h
    | none =>
      obtain ⟨hfs1, hc1, hex1⟩ := osCreate_nil _ w1 s.scriptPath (by simpa using habs) hc
      simp only at h
      have key : ∀ (path : String) (w1b : World), w1b.fs = w1.fs → w1b.cmds = w1.cmds →
          resolvedPath s w = Except.ok path →
          (match templateParse s.scriptTemplate with
            | none => (Status.panicked "template: parse error", w1b)
            | some t =>
              match templateExecute w1b s.scriptPath ⟨s.name, s.displayName, s.description, path⟩ t with
              | (some e, w3) => (Status.error e, w3)
              | (none, w3) =>
                match osChmod w3 s.scriptPath s.scriptPerms with
                | (some e, w4) => (Status.error e, w4)
                | (none, w4) =>
                  match s.installCmd with
                  | name :: args =>
                    let (err, w5) := cmdRun w4 name args
                    (Status.ofErr err, w5)
                  | [] => (Status.nil, w4)) = (Status.nil, w2) →
          ∃ path nodes txt, resolvedPath s w = Except.ok path ∧
            templateParse s.scriptTemplate = some nodes ∧
            renderNodes ⟨s.name, s.displayName, s.description, path⟩ nodes = some txt ∧
            w2.fs = fsSet w.fs s.scriptPath (some ⟨txt, s.scriptPerms⟩) ∧
            w2.cmds = w.cmds ++ launched s.installCmd := by
        intro path w1b hfsb hcb hrp hk
        cases hp : templateParse s.scriptTemplate with
        | none => rw [hp] at hk; simp at hk
        | some t =>
          rw [hp] at hk
          simp only at hk
          rcases hx : templateExecute w1b s.scriptPath ⟨s.name, s.displayName, s.description, path⟩ t
            with ⟨xerr, w3⟩
          rw [hx] at hk
          cases xerr with
          | some e => simp at hk
          | none =>
            have hf1 : w1b.fs s.scriptPath =
                some ⟨"", 0o666 &&& (0o777 ^^^ (w.umask % 0o1000))⟩ := by
              rw [hfsb, hfs1]
              simp [fsSet_same]
            obtain ⟨txt, hr, hfs3, hc3⟩ := templateExecute_nil _ _ t w1b w3 _ hf1 hx
            simp only at hk
            rcases hm : osChmod w3 s.scriptPath s.scriptPerms with ⟨merr, w4⟩
            rw [hm] at hk
            cases merr with
            | some e => simp at hk
            | none =>
              obtain ⟨f3, hf3, hfs4, hc4⟩ := osChmod_nil w3 w4 _ _ hm
              simp only at hk
              have hcontent : f3.content = txt := by
                rw [hfs3, fsSet_same] at hf3
                simp only [Option.some.injEq] at hf3
                rw [← hf3]
                simp
              have hfs : w4.fs = fsSet w.fs s.scriptPath (some ⟨txt, s.scriptPerms⟩) := by
                rw [hfs4, hfs3, hfsb, hfs1, hcontent]
                simp [fsSet_fsSet]
              have hcmds : w4.cmds = w.cmds := by
                rw [hc4, hc3, hcb, hc1]
                exact record_cmds_of_argv_none w (Call.stat s.scriptPath) rfl
              refine ⟨path, t, txt, hrp, rfl, hr, ?_⟩
              cases hi : s.installCmd with
              | nil =>
                rw [hi] at hk
                simp only [Prod.mk.injEq, true_and] at hk
                subst hk
                exact ⟨hfs, by simp [launched, hcmds]⟩
              | cons name args =>
                rw [hi] at hk
                simp only [cmdRun, Prod.mk.injEq] at hk
                obtain ⟨_, hk2⟩ := hk
                subst hk2
                exact ⟨by simpa using hfs, by rw [record_cmds_exec, hcmds]; rfl⟩
      by_cases hE : s.exePath = ""
      · simp only [hE, if_true, osextExecutable] at h
        cases hx : w1.executable with
        | error e => rw [hx] at h; simp at h
        | ok path =>
          rw [hx] at h
          simp only at h
          refine key path (w1.record Call.executable) rfl (record_cmds_of_argv_none w1 Call.executable rfl) ?_ h
          simp only [resolvedPath, hE, if_true]
          rw [← hx, hex1]
          rfl
      · simp only [hE, if_false] at h
        exact key s.exePath w1 rfl rfl (by simp [resolvedPath, hE]) h

/-! ## The variant descriptors and the selector -/

/-- C3: for every name `n`, `newUpstartService` yields script path
`/etc/init/n.conf`, mode 0644, no install and no remove command, start command
`start n` and stop command `stop n`; `newChkconfigService` yields script path
`/etc/init.d/n`, mode 0755, install command `chkconfig --add n`, remove command
`chkconfig --del n`, start command `service n start` and stop command
`service n stop`; both keep the four identity strings as given. -/
theorem variant_descriptors (n d de e : String) :
    (∃ s, newUpstartService n d de e = Except.ok s ∧
      s.scriptPath = "/etc/init/" ++ n ++ ".conf" ∧ s.scriptPerms = 0o644 ∧
      s.installCmd = [] ∧ s.removeCmd = [] ∧
      s.startCmd = ["start", n] ∧ s.stopCmd = ["stop", n] ∧
      s.name = n ∧ s.displayName = d ∧ s.description = de ∧ s.exePath = e) ∧
    (∃ s, newChkconfigService n d de e = Except.ok s ∧
      s.scriptPath = "/etc/init.d/" ++ n ∧ s.scriptPerms = 0o755 ∧
      s.installCmd = ["chkconfig", "--add", n] ∧ s.removeCmd = ["chkconfig", "--del", n] ∧
      s.startCmd = ["service", n, "start"] ∧ s.stopCmd = ["service", n, "stop"] ∧
      s.name = n ∧ s.displayName = d ∧ s.description = de ∧ s.exePath = e) :=
  ⟨⟨upstartService n d de e, rfl, rfl, rfl, rfl, rfl, rfl, rfl, rfl, rfl, rfl, rfl⟩,
   ⟨chkconfigService n d de e, rfl, rfl, rfl, rfl, rfl, rfl, rfl, rfl, rfl, rfl, rfl⟩⟩

theorem newService_present (w : World) (n d de e : String) (f : File)
    (hlog : w.syslogErr = none) (hm : w.fs "/etc/redhat-release" = some f) :
    (newService w n d de e).1 =
      Except.ok { chkconfigService n d de e with logger := some ⟨LOG_INFO, n⟩ } := by
  simp [newService, osStat, hm, newChkconfigService, syslogNew, hlog]

theorem newService_absent (w : World) (n d de e : String)
    (hlog : w.syslogErr = none) (hm : w.fs "/etc/redhat-release" = none) :
    (newService w n d de e).1 =
      Except.ok { upstartService n d de e with logger := some ⟨LOG_INFO, n⟩ } := by
  simp [newService, osStat, hm, newUpstartService, syslogNew, hlog]

/-- C1: in every world in which the log sink can be opened, `newService` returns
the value `newChkconfigService` builds (with the opened log sink attached) when
the marker file `/etc/redhat-release` exists, and the value `newUpstartService`
builds (with the log sink attached) when it is absent; two worlds that agree on
the presence of the marker give the same result for the same four strings. -/
theorem newService_selects (w : World) (n d de e : String) (hlog : w.syslogErr = none) :
    ((∃ f, w.fs "/etc/redhat-release" = some f) →
      (newService w n d de e).1 =
        (newChkconfigService n d de e).map (fun c => { c with logger := some ⟨LOG_INFO, n⟩ })) ∧
    (w.fs "/etc/redhat-release" = none →
      (newService w n d de e).1 =
        (newUpstartService n d de e).map (fun u => { u with logger := some ⟨LOG_INFO, n⟩ })) ∧
    (∀ v : World, v.syslogErr = none →
      (v.fs "/etc/redhat-release").isSome = (w.fs "/etc/redhat-release").isSome →
      (newService v n d de e).1 = (newService w n d de e).1) := by
  refine ⟨?_, ?_, ?_⟩
  · rintro ⟨f, hf⟩
    exact newService_present w n d de e f hlog hf
  · intro hf
    exact newService_absent w n d de e hlog hf
  · intro v hv hsame
    cases hw : w.fs "/etc/redhat-release" with
    | none =>
      rw [hw] at hsame
      have hvn : v.fs "/etc/redhat-release" = none := by
        cases hvf : v.fs "/etc/redhat-release" with
        | none => rfl
        | some g => rw [hvf] at hsame; simp at hsame
      rw [newService_absent v n d de e hv hvn, newService_absent w n d de e hlog hw]
    | some f =>
      rw [hw] at hsame
      cases hvf : v.fs "/etc/redhat-release" with
      | none => rw [hvf] at hsame; simp at hsame
      | some g =>
        rw [newService_present v n d de e g hv hvf, newService_present w n d de e f hlog hw]

/-- Witness of C1 on a host that has the marker file: the chkconfig variant is
chosen there, and a host with another marker content gives the same result. -/
theorem newService_selects_witness :
    (newService redhatHost "svc1" "Svc One" "d" "/usr/bin/svc1").1 =
        Except.ok { chkconfigService "svc1" "Svc One" "d" "/usr/bin/svc1" with
          logger := some ⟨LOG_INFO, "svc1"⟩ } ∧
    (newService plainHost "svc1" "Svc One" "d" "/usr/bin/svc1").1 =
        Except.ok { upstartService "svc1" "Svc One" "d" "/usr/bin/svc1" with
          logger := some ⟨LOG_INFO, "svc1"⟩ } :=
  ⟨(newService_selects redhatHost "svc1" "Svc One" "d" "/usr/bin/svc1" rfl).1 ⟨_, rfl⟩,
   (newService_selects plainHost "svc1" "Svc One" "d" "/usr/bin/svc1" rfl).2.1 rfl⟩

/-! ## Start and Stop -/

theorem ofErr_toErr_error_iff (name : String) (r : CmdResult) :
    (∃ err, Status.ofErr (r.toErr name) = Status.error err) ↔ r.failed := by
  cases r with
  | notStarted => simp [CmdResult.toErr, Status.ofErr, CmdResult.failed]
  | exited c => cases c <;> simp [CmdResult.toErr, Status.ofErr, CmdResult.failed]

theorem ofErr_toErr_ne_panicked (name msg : String) (r : CmdResult) :
    Status.ofErr (r.toErr name) ≠ Status.panicked msg := by
  cases r with
  | notStarted => simp [CmdResult.toErr, Status.ofErr]
  | exited c => cases c <;> simp [CmdResult.toErr, Status.ofErr]

theorem launchesOnly_cmdRun (w : World) (name : String) (args : List String) :
    launchesOnly w (name :: args)
      (Status.ofErr (cmdRun w name args).1, (cmdRun w name args).2) :=
  ⟨rfl, rfl, ofErr_toErr_error_iff name _, fun msg => ofErr_toErr_ne_panicked name msg _⟩

/-- C5: for a service built by `newUpstartService` or `newChkconfigService` for
name `n`, `Start` (`Stop`) makes exactly one call, the launch of the variant's
start (stop) vector (`start n` / `stop n` for upstart, `service n start` /
`service n stop` for chkconfig), returns an error exactly when that command
cannot be launched or exits non-zero, and never panics on the index-zero
access. -/
theorem start_stop_launch (n d de e : String) (w : World) :
    (∃ s, newUpstartService n d de e = Except.ok s ∧
      launchesOnly w ["start", n] (s.Start w) ∧ launchesOnly w ["stop", n] (s.Stop w)) ∧
    (∃ s, newChkconfigService n d de e = Except.ok s ∧
      launchesOnly w ["service", n, "start"] (s.Start w) ∧
      launchesOnly w ["service", n, "stop"] (s.Stop w)) :=
  ⟨⟨_, rfl, launchesOnly_cmdRun w "start" [n], launchesOnly_cmdRun w "stop" [n]⟩,
   ⟨_, rfl, launchesOnly_cmdRun w "service" [n, "start"],
     launchesOnly_cmdRun w "service" [n, "stop"]⟩⟩

/-! ## Install on an existing script -/

theorem Install_existing (s : linuxService) (w : World) (f : File)
    (hf : w.fs s.scriptPath = some f) :
    s.Install w =
      (Status.error (GoError.errorf ("Init already exists: " ++ s.scriptPath)),
        w.record (Call.stat s.scriptPath)) := by
  simp [linuxService.Install, osStat, hf]

/-- C2: when a file already exists at the script path, `Install` returns an
error, launches no external command and leaves the file map unchanged (its
only call is the stat of the script path); so after an `Install` that
succeeded, a second `Install` returns an error and leaves the file map, and
with it the script content, as the first call left it. -/
theorem install_existing_untouched (s : linuxService) (w : World) :
    (∀ f, w.fs s.scriptPath = some f →
      (s.Install w).1 = Status.error (GoError.errorf ("Init already exists: " ++ s.scriptPath)) ∧
      (s.Install w).2.fs = w.fs ∧ (s.Install w).2.cmds = w.cmds ∧
      (s.Install w).2.calls = w.calls ++ [Call.stat s.scriptPath]) ∧
    (∀ w1, s.Install w = (Status.nil, w1) →
      (∃ f, w1.fs s.scriptPath = some f) ∧
      (s.Install w1).1 = Status.error (GoError.errorf ("Init already exists: " ++ s.scriptPath)) ∧
      (s.Install w1).2.fs = w1.fs ∧ (s.Install w1).2.cmds = w1.cmds) := by
  constructor
  · intro f hf
    rw [Install_existing s w f hf]
    exact ⟨rfl, rfl, record_cmds_of_argv_none _ _ rfl, rfl⟩
  · intro w1 h
    obtain ⟨_, path, nodes, txt, _, _, _, hfs, _⟩ := Install_nil s w w1 h
    have hf : w1.fs s.scriptPath = some ⟨txt, s.scriptPerms⟩ := by rw [hfs, fsSet_same]
    rw [Install_existing s w1 _ hf]
    exact ⟨⟨_, hf⟩, rfl, rfl, record_cmds_of_argv_none _ _ rfl⟩

set_option maxRecDepth 1000000 in
/-- Witness of C2: on a host without files the first `Install` of the example
service succeeds, the second is rejected and changes no file. -/
theorem install_existing_untouched_witness :
    (svc1Upstart.Install plainHost).1 = Status.nil ∧
    (svc1Upstart.Install (svc1Upstart.Install plainHost).2).1 =
      Status.error (GoError.errorf ("Init already exists: " ++ svc1Upstart.scriptPath)) ∧
    (svc1Upstart.Install (svc1Upstart.Install plainHost).2).2.fs =
      (svc1Upstart.Install plainHost).2.fs :=
  have h1 : (svc1Upstart.Install plainHost).1 = Status.nil := by decide
  have h := (install_existing_untouched svc1Upstart plainHost).2
    (svc1Upstart.Install plainHost).2 (Prod.ext h1 rfl)
  ⟨h1, h.2.1, h.2.2.1⟩

/-! ## Remove -/

/-- C6: when the remove command vector is not empty and the command fails
(cannot be launched or exits non-zero), `Remove` returns that failure, its only
call is the launch of the command (the deletion is not attempted), and the
file map is unchanged. -/
theorem remove_fails_fast (s : linuxService) (w : World) (name : String) (args : List String)
    (hcmd : s.removeCmd = name :: args)
    (hfail : (w.cmdResult w.calls (name :: args)).failed) :
    ∃ err, (cmdRun w name args).1 = some err ∧
      (s.Remove w).1 = Status.error err ∧
      (s.Remove w).2.calls = w.calls ++ [Call.exec (name :: args)] ∧
      (s.Remove w).2.fs = w.fs ∧
      (∀ f, w.fs s.scriptPath = some f → (s.Remove w).2.fs s.scriptPath = some f) := by
  cases herr : (cmdRun w name args).1 with
  | none =>
    rw [cmdRun_fst, toErr_eq_none_iff] at herr
    rw [herr] at hfail
    rcases hfail with h | ⟨c, hc, h⟩
    · simp at h
    · simp only [CmdResult.exited.injEq] at h
      exact absurd h.symm hc
  | some err =>
    have hr : s.Remove w = (Status.error err, w.record (Call.exec (name :: args))) := by
      unfold linuxService.Remove
      rw [hcmd]
      simp only
      have : cmdRun w name args = (some err, w.record (Call.exec (name :: args))) :=
        Prod.ext herr rfl
      rw [this]
    rw [hr]
    exact ⟨err, rfl, rfl, rfl, rfl, fun f hf => hf⟩

/-- Witness of C6: the remove command of the example chkconfig service fails on a
host that holds its script; the script is still there afterwards. -/
theorem remove_fails_fast_witness :
    ∃ err, (cmdRun installedFailingHost "chkconfig" ["--del", "svc1"]).1 = some err ∧
      (svc1Chkconfig.Remove installedFailingHost).1 = Status.error err ∧
      (svc1Chkconfig.Remove installedFailingHost).2.calls =
        installedFailingHost.calls ++ [Call.exec ["chkconfig", "--del", "svc1"]] ∧
      (svc1Chkconfig.Remove installedFailingHost).2.fs = installedFailingHost.fs ∧
      (∀ f, installedFailingHost.fs svc1Chkconfig.scriptPath = some f →
        (svc1Chkconfig.Remove installedFailingHost).2.fs svc1Chkconfig.scriptPath = some f) :=
  remove_fails_fast svc1Chkconfig installedFailingHost "chkconfig" ["--del", "svc1"] rfl
    (Or.inr ⟨1, by decide, rfl⟩)

theorem Remove_nil (s : linuxService) (w w2 : World) (h : s.Remove w = (Status.nil, w2)) :
    w2.fs = fsSet w.fs s.scriptPath none ∧ w2.cmds = w.cmds ++ launched s.removeCmd := by
  unfold linuxService.Remove at h
  cases hcmd : s.removeCmd with
  | nil =>
    rw [hcmd] at h
    simp only at h
    rcases hr : osRemove w s.scriptPath with ⟨rerr, w1⟩
    rw [hr] at h
    cases rerr with
    | some e => simp [Status.ofErr] at h
    | none =>
      simp only [Status.ofErr, Prod.mk.injEq, true_and] at h
      subst h
      obtain ⟨hfs, hc⟩ := osRemove_nil w w1 _ hr
      exact ⟨hfs, by simp [launched, hc]⟩
  | cons name args =>
    rw [hcmd] at h
    simp only at h
    cases herr : (cmdRun w name args).1 with
    | some e =>
      have : cmdRun w name args = (some e, w.record (Call.exec (name :: args))) :=
        Prod.ext herr rfl
      rw [this] at h
      simp at h
    | none =>
      have : cmdRun w name args = (none, w.record (Call.exec (name :: args))) :=
        Prod.ext herr rfl
      rw [this] at h
      simp only at h
      rcases hr : osRemove (w.record (Call.exec (name :: args))) s.scriptPath with ⟨rerr, w1⟩
      rw [hr] at h
      cases rerr with
      | some e => simp [Status.ofErr] at h
      | none =>
        simp only [Status.ofErr, Prod.mk.injEq, true_and] at h
        subst h
        obtain ⟨hfs, hc⟩ := osRemove_nil _ w1 _ hr
        exact ⟨hfs, by rw [hc, record_cmds_exec]; rfl⟩

/-- C7: for either variant, from a world with no file at the script path, when
`Install` succeeds and the following `Remove` succeeds, no file is at the
script path afterwards and every other path is as before `Install`; the
commands launched are `chkconfig --add n` then `chkconfig --del n` for the
chkconfig variant, and none for the upstart variant. -/
theorem install_then_remove (n d de e : String) (s : linuxService) (w w1 w2 : World)
    (hs : s = upstartService n d de e ∨ s = chkconfigService n d de e)
    (habs : w.fs s.scriptPath = none)
    (hi : s.Install w = (Status.nil, w1)) (hr : s.Remove w1 = (Status.nil, w2)) :
    w2.fs s.scriptPath = none ∧ (∀ p, p ≠ s.scriptPath → w2.fs p = w.fs p) ∧
    ((s = upstartService n d de e ∧ w2.cmds = w.cmds) ∨
     (s = chkconfigService n d de e ∧
      w2.cmds = w.cmds ++ [["chkconfig", "--add", n], ["chkconfig", "--del", n]])) := by
  obtain ⟨_, path, nodes, txt, _, _, _, hfs1, hc1⟩ := Install_nil s w w1 hi
  obtain ⟨hfs2, hc2⟩ := Remove_nil s w1 w2 hr
  have hfs : w2.fs = fsSet w.fs s.scriptPath none := by rw [hfs2, hfs1, fsSet_fsSet]
  have hpath : w2.fs s.scriptPath = w.fs s.scriptPath := by rw [hfs, fsSet_same, habs]
  refine ⟨hpath.trans habs, fun p hp => by rw [hfs, fsSet_other _ _ _ _ hp], ?_⟩
  rcases hs with h | h
  · refine Or.inl ⟨h, ?_⟩
    rw [hc2, hc1, h]
    simp [upstartService, launched]
  · refine Or.inr ⟨h, ?_⟩
    rw [hc2, hc1, h]
    simp [chkconfigService, launched]

set_option maxRecDepth 1000000 in
/-- Witness of C7: the example chkconfig service installed on and removed from a
host without files. -/
theorem install_then_remove_witness :
    (svc1Chkconfig.Remove (svc1Chkconfig.Install plainHost).2).2.fs svc1Chkconfig.scriptPath
        = none ∧
    (∀ p, p ≠ svc1Chkconfig.scriptPath →
      (svc1Chkconfig.Remove (svc1Chkconfig.Install plainHost).2).2.fs p = plainHost.fs p) ∧
    ((svc1Chkconfig = upstartService "svc1" "Svc One" "d" "/usr/bin/svc1" ∧
        (svc1Chkconfig.Remove (svc1Chkconfig.Install plainHost).2).2.cmds = plainHost.cmds) ∨
     (svc1Chkconfig = chkconfigService "svc1" "Svc One" "d" "/usr/bin/svc1" ∧
        (svc1Chkconfig.Remove (svc1Chkconfig.Install plainHost).2).2.cmds =
          plainHost.cmds ++ [["chkconfig", "--add", "svc1"], ["chkconfig", "--del", "svc1"]])) :=
  install_then_remove "svc1" "Svc One" "d" "/usr/bin/svc1" svc1Chkconfig plainHost
    (svc1Chkconfig.Install plainHost).2 (svc1Chkconfig.Remove (svc1Chkconfig.Install plainHost).2).2
    (Or.inr rfl) rfl (Prod.ext (by decide) rfl) (Prod.ext (by decide) rfl)

theorem Remove_absent_of_cmd_failed (s : linuxService) (w : World) (name : String)
    (args : List String) (hcmd : s.removeCmd = name :: args)
    (hfail : (w.cmdResult w.calls (name :: args)).failed) :
    ∃ err, (w.cmdResult w.calls (name :: args)).toErr name = some err ∧
      s.Remove w = (Status.error err, w.record (Call.exec (name :: args))) := by
  cases herr : (w.cmdResult w.calls (name :: args)).toErr name with
  | none =>
    rw [toErr_eq_none_iff] at herr
    rw [herr] at hfail
    rcases hfail with h | ⟨c, hc, h⟩
    · simp at h
    · simp only [CmdResult.exited.injEq] at h
      exact absurd h.symm hc
  | some err =>
    refine ⟨err, rfl, ?_⟩
    unfold linuxService.Remove
    rw [hcmd]
    simp only
    have : cmdRun w name args = (some err, w.record (Call.exec (name :: args))) :=
      Prod.ext herr rfl
    rw [this]

theorem Remove_absent_of_cmd_ok (s : linuxService) (w : World) (name : String)
    (args : List String) (hcmd : s.removeCmd = name :: args)
    (hok : w.cmdResult w.calls (name :: args) = CmdResult.exited 0)
    (habs : w.fs s.scriptPath = none) :
    s.Remove w =
      (Status.error (GoError.pathError "remove" s.scriptPath "no such file or directory"),
        (w.record (Call.exec (name :: args))).record (Call.remove s.scriptPath)) := by
  have hrun : cmdRun w name args = (none, w.record (Call.exec (name :: args))) := by
    simp [cmdRun, hok, CmdResult.toErr]
  have habs2 : (w.record (Call.exec (name :: args))).fs s.scriptPath = none := habs
  unfold linuxService.Remove
  rw [hcmd]
  simp only
  rw [hrun]
  simp only
  rw [osRemove_absent _ _ habs2]
  rfl

theorem Remove_absent_of_no_cmd (s : linuxService) (w : World) (hcmd : s.removeCmd = [])
    (habs : w.fs s.scriptPath = none) :
    s.Remove w =
      (Status.error (GoError.pathError "remove" s.scriptPath "no such file or directory"),
        w.record (Call.remove s.scriptPath)) := by
  unfold linuxService.Remove
  rw [hcmd]
  simp only
  rw [osRemove_absent _ _ habs]
  rfl

/-- C8, as amended: for either variant and every world with no file at the
script path, `Remove` leaves the file map unchanged; when the variant has no
remove command, or the command exits with status zero, `Remove` makes the
launch (if any) and then the deletion call and returns the deletion failure;
when the command fails (cannot be launched or exits non-zero), `Remove` returns
exactly the failure of that command, its only call is the launch, and no
deletion call is made. -/
theorem remove_not_installed (n d de e : String) (s : linuxService) (w : World)
    (hs : s = upstartService n d de e ∨ s = chkconfigService n d de e)
    (habs : w.fs s.scriptPath = none) :
    ((s = upstartService n d de e ∧ s.removeCmd = []) ∨
      (s = chkconfigService n d de e ∧ s.removeCmd = ["chkconfig", "--del", n])) ∧
    (s.Remove w).2.fs = w.fs ∧
    ((s.removeCmd = [] ∨ w.cmdResult w.calls s.removeCmd = CmdResult.exited 0) →
      (s.Remove w).1 =
          Status.error (GoError.pathError "remove" s.scriptPath "no such file or directory") ∧
        (s.Remove w).2.calls =
          w.calls ++ (launched s.removeCmd).map Call.exec ++ [Call.remove s.scriptPath]) ∧
    (∀ name args, s.removeCmd = name :: args →
      (w.cmdResult w.calls (name :: args)).failed →
      ∃ err, (cmdRun w name args).1 = some err ∧
        (w.cmdResult w.calls (name :: args) = CmdResult.notStarted →
          err = GoError.launchError name) ∧
        (∀ c, w.cmdResult w.calls (name :: args) = CmdResult.exited c →
          err = GoError.exitError c) ∧
        (s.Remove w).1 = Status.error err ∧
        (s.Remove w).2.calls = w.calls ++ [Call.exec (name :: args)] ∧
        Call.remove s.scriptPath ∉ (s.Remove w).2.calls.drop w.calls.length) := by
  refine ⟨?_, ?_, ?_, ?_⟩
  · -- the variant and its remove command
    rcases hs with h | h
    · exact Or.inl ⟨h, by rw [h]; rfl⟩
    · exact Or.inr ⟨h, by rw [h]; rfl⟩
  · -- the file map
    cases hcmd : s.removeCmd with
    | nil => rw [Remove_absent_of_no_cmd s w hcmd habs]; rfl
    | cons name args =>
      by_cases hok : w.cmdResult w.calls (name :: args) = CmdResult.exited 0
      · rw [Remove_absent_of_cmd_ok s w name args hcmd hok habs]; rfl
      · have hfail : (w.cmdResult w.calls (name :: args)).failed := by
          cases hres : w.cmdResult w.calls (name :: args) with
          | notStarted => exact Or.inl rfl
          | exited c =>
            refine Or.inr ⟨c, ?_, rfl⟩
            intro hc
            rw [hres, hc] at hok
            exact hok rfl
        obtain ⟨err, _, hr⟩ := Remove_absent_of_cmd_failed s w name args hcmd hfail
        rw [hr]; rfl
  · -- no command, or the command succeeds
    intro hc
    cases hcmd : s.removeCmd with
    | nil =>
      rw [Remove_absent_of_no_cmd s w hcmd habs]
      exact ⟨rfl, by simp [launched]⟩
    | cons name args =>
      rw [hcmd] at hc
      rcases hc with hc | hc
      · simp at hc
      · rw [Remove_absent_of_cmd_ok s w name args hcmd hc habs]
        exact ⟨rfl, by simp [launched]⟩
  · -- the command fails
    intro name args hcmd hfail
    obtain ⟨err, herr, hr⟩ := Remove_absent_of_cmd_failed s w name args hcmd hfail
    refine ⟨err, herr, ?_, ?_, ?_, ?_, ?_⟩
    · intro hns
      rw [hns] at herr
      simpa [CmdResult.toErr] using herr.symm
    · intro c hc
      rw [hc] at herr
      cases c with
      | zero => simp [CmdResult.toErr] at herr
      | succ k => simpa [CmdResult.toErr] using herr.symm
    · rw [hr]
    · rw [hr]; rfl
    · rw [hr]
      simp

/-- Witness of C8 as amended, on hosts without files: the chkconfig variant where
`chkconfig --del svc1` exits with status 1 (the failure of the command is
returned, no deletion call), the chkconfig variant where it exits with status
zero (the deletion failure is returned after the launch), and the upstart
variant (the deletion failure is returned, nothing is launched). -/
theorem remove_not_installed_witness :
    ((svc1Chkconfig.Remove failingCmdHost).1 = Status.error (GoError.exitError 1) ∧
      (svc1Chkconfig.Remove failingCmdHost).2.calls =
        [Call.exec ["chkconfig", "--del", "svc1"]] ∧
      (svc1Chkconfig.Remove failingCmdHost).2.fs = failingCmdHost.fs) ∧
    ((svc1Chkconfig.Remove plainHost).1 =
        Status.error (GoError.pathError "remove" "/etc/init.d/svc1" "no such file or directory") ∧
      (svc1Chkconfig.Remove plainHost).2.calls =
        [Call.exec ["chkconfig", "--del", "svc1"], Call.remove "/etc/init.d/svc1"]) ∧
    ((svc1Upstart.Remove plainHost).1 =
        Status.error (GoError.pathError "remove" "/etc/init/svc1.conf"
          "no such file or directory") ∧
      (svc1Upstart.Remove plainHost).2.calls = [Call.remove "/etc/init/svc1.conf"]) := by
  have hfail := remove_not_installed "svc1" "Svc One" "d" "/usr/bin/svc1" svc1Chkconfig
    failingCmdHost (Or.inr rfl) rfl
  have hok := remove_not_installed "svc1" "Svc One" "d" "/usr/bin/svc1" svc1Chkconfig
    plainHost (Or.inr rfl) rfl
  have hup := remove_not_installed "svc1" "Svc One" "d" "/usr/bin/svc1" svc1Upstart
    plainHost (Or.inl rfl) rfl
  refine ⟨?_, ?_, ?_⟩
  · obtain ⟨err, _, _, hexit, hst, hcalls, _⟩ :=
      hfail.2.2.2 "chkconfig" ["--del", "svc1"] rfl (Or.inr ⟨1, by decide, rfl⟩)
    have herr : err = GoError.exitError 1 := hexit 1 rfl
    subst herr
    exact ⟨hst, hcalls, hfail.2.1⟩
  · exact hok.2.2.1 (Or.inr rfl)
  · exact hup.2.2.1 (Or.inl rfl)

/-- C8 as stated fails: on a host where `chkconfig --del svc1` exits with status 1
and no script is installed, `Remove` of the chkconfig variant returns the
failure of the command, not the deletion failure. -/
theorem remove_not_installed_counterexample :
    failingCmdHost.fs (chkconfigService "svc1" "Svc One" "d" "/usr/bin/svc1").scriptPath = none ∧
    ((chkconfigService "svc1" "Svc One" "d" "/usr/bin/svc1").Remove failingCmdHost).1 =
      Status.error (GoError.exitError 1) ∧
    ((chkconfigService "svc1" "Svc One" "d" "/usr/bin/svc1").Remove failingCmdHost).1 ≠
      Status.error (GoError.pathError "remove" "/etc/init.d/svc1" "no such file or directory") := by
  refine ⟨rfl, rfl, ?_⟩
  have h : ((chkconfigService "svc1" "Svc One" "d" "/usr/bin/svc1").Remove failingCmdHost).1 =
      Status.error (GoError.exitError 1) := rfl
  rw [h]
  simp

/-! ## The run loop -/

/-- C9, as amended: if `onStart` returns an error, `Run` returns that error, and
the only event is the call of `onStart` (no registration, no receive, no
`onStop`); if `onStart` succeeds and an interrupt arrives, the events are, in
this order, the call of `onStart`, the registration for interrupt and kill, the
receive of the interrupt and the call of `onStop`, each once, and `Run` returns
the result of `onStop`; if `onStart` succeeds and no signal arrives, `Run` does
not return and `onStop` is not called; if `onStart` succeeds and a kill arrives,
the process is ended, `Run` does not return and `onStop` is not called. -/
theorem run_ordering {σ : Type} (s : linuxService) (onStart onStop : σ → Option GoError × σ)
    (st : RunState σ) :
    (∀ err u1, onStart st.user = (some err, u1) →
      s.Run onStart onStop st =
        (RunResult.returned (some err),
          { user := u1, signals := st.signals, events := st.events ++ [RunEvent.onStart] })) ∧
    (∀ u1 rest res u2, onStart st.user = (none, u1) → st.signals = Signal.Interrupt :: rest →
      onStop u1 = (res, u2) →
      s.Run onStart onStop st =
        (RunResult.returned res,
          { user := u2, signals := rest,
            events := st.events ++ [RunEvent.onStart,
              RunEvent.notify [Signal.Interrupt, Signal.Kill],
              RunEvent.receive Signal.Interrupt, RunEvent.onStop] })) ∧
    (∀ u1, onStart st.user = (none, u1) → st.signals = [] →
      s.Run onStart onStop st =
        (RunResult.blocked,
          { user := u1, signals := [],
            events := st.events ++ [RunEvent.onStart,
              RunEvent.notify [Signal.Interrupt, Signal.Kill]] })) ∧
    (∀ u1 rest, onStart st.user = (none, u1) → st.signals = Signal.Kill :: rest →
      s.Run onStart onStop st =
        (RunResult.terminated Signal.Kill,
          { user := u1, signals := rest,
            events := st.events ++ [RunEvent.onStart,
              RunEvent.notify [Signal.Interrupt, Signal.Kill]] })) := by
  refine ⟨?_, ?_, ?_, ?_⟩
  · intro err u1 h1
    simp [linuxService.Run, h1]
  · intro u1 rest res u2 h1 hsig h2
    simp [linuxService.Run, h1, hsig, h2, chanRecv, Signal.catchable]
  · intro u1 h1 hsig
    simp [linuxService.Run, h1, hsig, chanRecv]
  · intro u1 rest h1 hsig
    simp [linuxService.Run, h1, hsig, chanRecv, Signal.catchable]

/-- Witness of C9 as amended: a start callback that succeeds, one interrupt, and a
stop callback that fails; a start callback that fails; no signal at all; and a
kill. -/
theorem run_ordering_witness :
    svc1Upstart.Run (fun u => (none, u + 1)) (fun u => (some (GoError.other "stop"), u + 10))
        interruptedRun =
      (RunResult.returned (some (GoError.other "stop")),
        { user := 11, signals := [],
          events := [RunEvent.onStart, RunEvent.notify [Signal.Interrupt, Signal.Kill],
            RunEvent.receive Signal.Interrupt, RunEvent.onStop] }) ∧
    svc1Upstart.Run (fun u => (some (GoError.other "start"), u + 1))
        (fun u => (none, u + 10)) interruptedRun =
      (RunResult.returned (some (GoError.other "start")),
        { user := 1, signals := [Signal.Interrupt], events := [RunEvent.onStart] }) ∧
    svc1Upstart.Run (fun u => (none, u + 1)) (fun u => (none, u + 10)) idleRun =
      (RunResult.blocked,
        { user := 1, signals := [],
          events := [RunEvent.onStart, RunEvent.notify [Signal.Interrupt, Signal.Kill]] }) ∧
    svc1Upstart.Run (fun u => (none, u + 1)) (fun u => (none, u + 10)) killedRun =
      (RunResult.terminated Signal.Kill,
        { user := 1, signals := [],
          events := [RunEvent.onStart, RunEvent.notify [Signal.Interrupt, Signal.Kill]] }) :=
  ⟨(run_ordering svc1Upstart (fun u => (none, u + 1))
      (fun u => (some (GoError.other "stop"), u + 10)) interruptedRun).2.1
        1 [] (some (GoError.other "stop")) 11 rfl rfl rfl,
   (run_ordering svc1Upstart (fun u => (some (GoError.other "start"), u + 1))
      (fun u => (none, u + 10)) interruptedRun).1 (GoError.other "start") 1 rfl,
   (run_ordering svc1Upstart (fun u => (none, u + 1)) (fun u => (none, u + 10))
      idleRun).2.2.1 1 rfl rfl,
   (run_ordering svc1Upstart (fun u => (none, u + 1)) (fun u => (none, u + 10))
      killedRun).2.2.2 1 [] rfl rfl⟩

/-- C9 as stated fails: with a start callback that succeeds and a kill as the
termination request, `Run` does not return the result of `onStop`: the process
is ended, and the call of `onStop` is not among the events. -/
theorem run_ordering_counterexample :
    (svc1Upstart.Run (fun u => (none, u + 1)) (fun u => (none, u + 10)) killedRun).1 =
      RunResult.terminated Signal.Kill ∧
    (svc1Upstart.Run (fun u => (none, u + 1)) (fun u => (none, u + 10)) killedRun).1 ≠
      RunResult.returned none ∧
    RunEvent.onStop ∉
      (svc1Upstart.Run (fun u => (none, u + 1)) (fun u => (none, u + 10)) killedRun).2.events := by
  refine ⟨?_, ?_, ?_⟩ <;> decide

/-! ## Install: the order of its steps -/

/-- C10 fails on the code: on a host where the running executable cannot be
resolved, `Install` of a service with no configured path makes the calls stat,
create, executable in this order, returns the resolution failure, and leaves an
empty file at the script path; the next `Install` is rejected as already
installed. -/
theorem install_creates_before_resolving :
    noExecutableHost.fs (upstartService "svc1" "Svc One" "d" "").scriptPath = none ∧
    ((upstartService "svc1" "Svc One" "d" "").Install noExecutableHost).1 =
      Status.error (GoError.other "readlink /proc/self/exe: no such file or directory") ∧
    ((upstartService "svc1" "Svc One" "d" "").Install noExecutableHost).2.calls =
      [Call.stat "/etc/init/svc1.conf", Call.create "/etc/init/svc1.conf", Call.executable] ∧
    ((upstartService "svc1" "Svc One" "d" "").Install noExecutableHost).2.fs
      "/etc/init/svc1.conf" = some ⟨"", 0o644⟩ ∧
    ((upstartService "svc1" "Svc One" "d" "").Install
      ((upstartService "svc1" "Svc One" "d" "").Install noExecutableHost).2).1 =
      Status.error (GoError.errorf "Init already exists: /etc/init/svc1.conf") := by
  refine ⟨rfl, ?_, ?_, ?_, ?_⟩ <;> decide

/-! ## The rendered script -/

set_option maxRecDepth 1000000 in
theorem templateParse_upstartScript : templateParse upstartScript = some upstartNodes := by
  decide

set_option maxRecDepth 1000000 in
theorem templateParse_initScript : templateParse initScript = some initNodes := by
  decide

theorem contains_head (sub b : String) : contains (sub ++ b) sub :=
  ⟨"", b, by simp⟩

theorem contains_append_left (x t sub : String) (h : contains t sub) : contains (x ++ t) sub := by
  obtain ⟨a, b, hab⟩ := h
  exact ⟨x ++ a, b, by rw [hab]; simp [String.append_assoc]⟩

theorem contains_iff_data (t sub : String) : contains t sub ↔ sub.data <:+: t.data := by
  constructor
  · rintro ⟨a, b, h⟩
    exact ⟨a.data, b.data, by rw [h]; simp⟩
  · rintro ⟨a, b, h⟩
    refine ⟨String.mk a, String.mk b, ?_⟩
    apply String.ext
    rw [← h]
    simp

theorem render_upstartNodes (data : TemplateData) (txt : String)
    (h : renderNodes data upstartNodes = some txt) :
    contains txt data.Display ∧ contains txt data.Description ∧ contains txt data.Path := by
  simp [renderNodes, upstartNodes, TemplateData.lookup] at h
  subst h
  refine ⟨?_, ?_, ?_⟩ <;>
    repeat (first | exact contains_head _ _ | apply contains_append_left)

theorem render_initNodes (data : TemplateData) (txt : String)
    (h : renderNodes data initNodes = some txt) :
    contains txt data.Name ∧ contains txt data.Display ∧ contains txt data.Description ∧
      contains txt data.Path := by
  simp [renderNodes, initNodes, TemplateData.lookup] at h
  subst h
  refine ⟨?_, ?_, ?_, ?_⟩ <;>
    repeat (first | exact contains_head _ _ | apply contains_append_left)

/-- C4, as amended: after a successful `Install` the file at the script path holds
the rendered script; for the chkconfig variant it contains the name, the
display name, the description and the resolved executable path as substrings;
for the upstart variant it contains the display name, the description and the
resolved path (the upstart template has no place for the name). -/
theorem install_script_contains (n d de e : String) (s : linuxService) (w w1 : World)
    (hs : s = upstartService n d de e ∨ s = chkconfigService n d de e)
    (hi : s.Install w = (Status.nil, w1)) :
    ∃ path f, resolvedPath s w = Except.ok path ∧ w1.fs s.scriptPath = some f ∧
      contains f.content d ∧ contains f.content de ∧ contains f.content path ∧
      (s = chkconfigService n d de e → contains f.content n) := by
  obtain ⟨_, path, nodes, txt, hp, hparse, hr, hfs, _⟩ := Install_nil s w w1 hi
  refine ⟨path, ⟨txt, s.scriptPerms⟩, hp, by rw [hfs, fsSet_same], ?_⟩
  rcases hs with h | h
  · subst h
    have hn : nodes = upstartNodes := by
      have := templateParse_upstartScript
      simp only [upstartService] at hparse
      rw [hparse] at this
      exact Option.some.inj this
    subst hn
    obtain ⟨h1, h2, h3⟩ := render_upstartNodes _ txt hr
    refine ⟨h1, h2, h3, fun hc => ?_⟩
    have : (upstartService n d de e).scriptPerms = (chkconfigService n d de e).scriptPerms := by
      rw [hc]
    simp [upstartService, chkconfigService] at this
  · subst h
    have hn : nodes = initNodes := by
      have := templateParse_initScript
      simp only [chkconfigService] at hparse
      rw [hparse] at this
      exact Option.some.inj this
    subst hn
    obtain ⟨h0, h1, h2, h3⟩ := render_initNodes _ txt hr
    exact ⟨h1, h2, h3, fun _ => h0⟩

set_option maxRecDepth 1000000 in
/-- Witness of C4 as amended: the example chkconfig service installed on a host
without files. -/
theorem install_script_contains_witness :
    ∃ path f, resolvedPath svc1Chkconfig plainHost = Except.ok path ∧
      (svc1Chkconfig.Install plainHost).2.fs svc1Chkconfig.scriptPath = some f ∧
      contains f.content "Svc One" ∧ contains f.content "d" ∧ contains f.content path ∧
      (svc1Chkconfig = chkconfigService "svc1" "Svc One" "d" "/usr/bin/svc1" →
        contains f.content "svc1") :=
  install_script_contains "svc1" "Svc One" "d" "/usr/bin/svc1" svc1Chkconfig plainHost
    (svc1Chkconfig.Install plainHost).2 (Or.inr rfl) (Prod.ext (by decide) rfl)

set_option maxRecDepth 1000000 in
/-- C4 as stated fails for the upstart variant: the script `Install` writes for
name `svc1`, display name `Svc One`, description `d` and path
`/usr/bin/daemon` does not contain `svc1`. -/
theorem install_script_contains_counterexample :
    ((upstartService "svc1" "Svc One" "d" "/usr/bin/daemon").Install plainHost).1 = Status.nil ∧
    ∃ f, ((upstartService "svc1" "Svc One" "d" "/usr/bin/daemon").Install plainHost).2.fs
        (upstartService "svc1" "Svc One" "d" "/usr/bin/daemon").scriptPath = some f ∧
      ¬ contains f.content "svc1" := by
  refine ⟨by decide, ⟨renderedExample, 0o644⟩, by decide, ?_⟩
  rw [contains_iff_data]
  decide
end Service
